import Mathlib

/-!
Verification of the slide-generation pipeline in `src/core/slide_generator.py`
(class `SlideGenerator`).  Python text is modelled as `List Char`; JSON values
(the results of `json.loads`) as the inductive `JsonValue`; the LLM and the
clock are abstracted as parameters.  Fallible code paths (uncaught Python
exceptions) are modelled with `Option`.
-/

set_option maxRecDepth 8192

/-- Python text, modelled as a list of characters. -/
abbrev Str := List Char

/-- Result of `json.loads`, restricted to the fragment exercised by the
pipeline (integers only; no floats, no `\u` escapes).  Objects keep insertion
order like Python dicts. -/
inductive JsonValue where
  | null
  | bool (b : Bool)
  | num (n : Int)
  | str (s : Str)
  | arr (elems : List JsonValue)
  | obj (entries : List (Str × JsonValue))
deriving Repr

mutual

/-- Boolean equality on JSON values, modelling Python `==` on parsed values. -/
def jeq : JsonValue → JsonValue → Bool
  | JsonValue.null, JsonValue.null => true
  | JsonValue.bool a, JsonValue.bool b => a == b
  | JsonValue.num a, JsonValue.num b => a == b
  | JsonValue.str a, JsonValue.str b => a == b
  | JsonValue.arr a, JsonValue.arr b => jeqList a b
  | JsonValue.obj a, JsonValue.obj b => jeqEntries a b
  | _, _ => false

def jeqList : List JsonValue → List JsonValue → Bool
  | [], [] => true
  | x :: xs, y :: ys => jeq x y && jeqList xs ys
  | _, _ => false

def jeqEntries : List (Str × JsonValue) → List (Str × JsonValue) → Bool
  | [], [] => true
  | (k1, v1) :: xs, (k2, v2) :: ys => k1 == k2 && jeq v1 v2 && jeqEntries xs ys
  | _, _ => false

end

/-- Whitespace for Python `str.strip` and the regex class `\s` (ASCII part). -/
def pyWs (c : Char) : Bool :=
  c == ' ' || c == '\t' || c == '\n' || c == '\r' || c == '\x0b' || c == '\x0c'

/-- Python `str.strip()`. -/
def pyStrip (s : Str) : Str :=
  ((s.dropWhile pyWs).reverse.dropWhile pyWs).reverse

/-- Python `str.lower()` (ASCII). -/
def pyLower (s : Str) : Str := s.map Char.toLower

/-- Index of the first occurrence of `pat` in the text, scanning from
offset `i`. -/
def findSubFrom (pat : Str) : Str → Nat → Option Nat
  | [], i => if pat.isPrefixOf ([] : Str) then some i else none
  | c :: rest, i =>
    if pat.isPrefixOf (c :: rest) then some i else findSubFrom pat rest (i + 1)

/-- Index of the first occurrence of `pat` in `s` (regex literal search). -/
def findSub (s pat : Str) : Option Nat := findSubFrom pat s 0

/-- Whether `pat` occurs as a contiguous substring of `s`. -/
def containsSub : Str → Str → Bool
  | [], pat => pat.isPrefixOf ([] : Str)
  | c :: rest, pat => pat.isPrefixOf (c :: rest) || containsSub rest pat

def startMarker : Str := "START OF JSON".data
def endMarker : Str := "END OF JSON".data

/-- The marker step of `parse_json_from_response`: the regex
`START OF JSON\s*([\s\S]*?)\s*END OF JSON` searched with `re.DOTALL`, i.e. the
text between the first `START OF JSON` and the first subsequent
`END OF JSON`, with the interior stripped (the lazy group plus the final
`.strip()` in the source). -/
def markerInterior (t : Str) : Option Str :=
  match findSub t startMarker with
  | none => none
  | some i =>
    let rest := t.drop (i + startMarker.length)
    match findSub rest endMarker with
    | none => none
    | some j => some (pyStrip (rest.take j))

/-- First index of the character `c` in `s`. -/
def firstIdx (s : Str) (c : Char) : Option Nat := findSub s [c]

/-- Last index of the character `c` in `s`. -/
def lastIdx (s : Str) (c : Char) : Option Nat :=
  (firstIdx s.reverse c).map (fun k => s.length - 1 - k)

/-- The greedy regex `(o.*c)` with `re.DOTALL`: the span from the first
occurrence of the opening character to the last occurrence of the closing
character, when the latter comes after the former. -/
def charSpan (s : Str) (o c : Char) : Option Str :=
  match firstIdx s o, lastIdx s c with
  | some i, some j => if i < j then some ((s.take (j + 1)).drop i) else none
  | _, _ => none

/-- The `({.*})` fallback of `parse_json_from_response`. -/
def braceSpan (s : Str) : Option Str := charSpan s '\x7b' '\x7d'

/-- The `(\[[\s\S]*\])` fallback of `parse_json_from_response`. -/
def bracketSpan (s : Str) : Option Str := charSpan s '[' ']'

/-- JSON inter-token whitespace accepted by `json.loads`. -/
def isJsonWs (c : Char) : Bool := c == ' ' || c == '\t' || c == '\n' || c == '\r'

def skipWs (s : Str) : Str := s.dropWhile isJsonWs

/-- JSON string escapes handled by `json.loads` (the `\uXXXX` form is outside
the modelled fragment). -/
def escChar : Char → Option Char
  | '"' => some '"'
  | '\\' => some '\\'
  | '/' => some '/'
  | 'b' => some '\x08'
  | 'f' => some '\x0c'
  | 'n' => some '\n'
  | 'r' => some '\r'
  | 't' => some '\t'
  | _ => none

def digitsToNat : Str → Nat → Nat
  | [], acc => acc
  | c :: rest, acc => digitsToNat rest (acc * 10 + (c.toNat - '0'.toNat))

/-- Integer token of the JSON grammar (`json.loads` rejects leading zeros;
floats are outside the modelled fragment, so a number followed by `.`, `e`
or `E` is rejected rather than parsed). -/
def parseIntToken (s : Str) : Option (Int × Str) :=
  let neg : Bool := match s with | '-' :: _ => true | _ => false
  let s1 : Str := match s with | '-' :: r => r | _ => s
  let ds := s1.takeWhile Char.isDigit
  let rest := s1.dropWhile Char.isDigit
  if ds = [] then none
  else if ds.length > 1 && ds.headD '0' == '0' then none
  else
    match rest with
    | '.' :: _ => none
    | 'e' :: _ => none
    | 'E' :: _ => none
    | _ =>
      let n : Int := Int.ofNat (digitsToNat ds 0)
      some (if neg then -n else n, rest)

/-- Insertion into a Python dict: an existing key keeps its position and gets
the new value, a new key is appended. -/
def objInsert (entries : List (Str × JsonValue)) (k : Str) (v : JsonValue) :
    List (Str × JsonValue) :=
  match entries with
  | [] => [(k, v)]
  | (k0, v0) :: rest =>
    if k0 = k then (k0, v) :: rest else (k0, v0) :: objInsert rest k v

mutual

/-- Recursive-descent model of `json.loads` (value position).  `strict` is
Python's `strict` flag: when true, raw control characters inside strings are
rejected.  Fuel only bounds recursion depth. -/
def parseValue (strict : Bool) : Nat → Str → Option (JsonValue × Str)
  | 0, _ => none
  | Nat.succ fuel, s =>
    match skipWs s with
    | [] => none
    | 'n' :: 'u' :: 'l' :: 'l' :: rest => some (JsonValue.null, rest)
    | 't' :: 'r' :: 'u' :: 'e' :: rest => some (JsonValue.bool true, rest)
    | 'f' :: 'a' :: 'l' :: 's' :: 'e' :: rest => some (JsonValue.bool false, rest)
    | '"' :: rest =>
      (parseStringBody strict fuel rest).map (fun p => (JsonValue.str p.1, p.2))
    | '[' :: rest =>
      (match skipWs rest with
       | ']' :: r2 => some (JsonValue.arr [], r2)
       | _ => parseArrayItems strict fuel rest [])
    | '\x7b' :: rest =>
      (match skipWs rest with
       | '\x7d' :: r2 => some (JsonValue.obj [], r2)
       | _ => parseObjItems strict fuel rest [])
    | s' => (parseIntToken s').map (fun p => (JsonValue.num p.1, p.2))

/-- String body after the opening quote. -/
def parseStringBody (strict : Bool) : Nat → Str → Option (Str × Str)
  | 0, _ => none
  | Nat.succ fuel, s =>
    match s with
    | [] => none
    | '"' :: rest => some ([], rest)
    | '\\' :: e :: rest =>
      (match escChar e with
       | some c => (parseStringBody strict fuel rest).map (fun p => (c :: p.1, p.2))
       | none => none)
    | c :: rest =>
      if strict && decide (c.toNat < 32) then none
      else (parseStringBody strict fuel rest).map (fun p => (c :: p.1, p.2))

/-- Array elements after `[` (nonempty case). -/
def parseArrayItems (strict : Bool) :
    Nat → Str → List JsonValue → Option (JsonValue × Str)
  | 0, _, _ => none
  | Nat.succ fuel, s, acc =>
    match parseValue strict fuel s with
    | none => none
    | some (v, rest) =>
      match skipWs rest with
      | ',' :: r2 => parseArrayItems strict fuel r2 (acc ++ [v])
      | ']' :: r2 => some (JsonValue.arr (acc ++ [v]), r2)
      | _ => none

/-- Object members after `{` (nonempty case). -/
def parseObjItems (strict : Bool) :
    Nat → Str → List (Str × JsonValue) → Option (JsonValue × Str)
  | 0, _, _ => none
  | Nat.succ fuel, s, acc =>
    match skipWs s with
    | '"' :: rest =>
      (match parseStringBody strict fuel rest with
       | none => none
       | some (k, r1) =>
         match skipWs r1 with
         | ':' :: r2 =>
           (match parseValue strict fuel r2 with
            | none => none
            | some (v, r3) =>
              match skipWs r3 with
              | ',' :: r4 => parseObjItems strict fuel r4 (objInsert acc k v)
              | '\x7d' :: r4 => some (JsonValue.obj (objInsert acc k v), r4)
              | _ => none)
         | _ => none)
    | _ => none

end

/-- Model of `json.loads(s, strict=·)`: a single value, with only whitespace
allowed after it. -/
def jsonLoads (strict : Bool) (s : Str) : Option JsonValue :=
  match parseValue strict (2 * s.length + 8) s with
  | some (v, rest) => if skipWs rest = [] then some v else none
  | none => none

/-- The parsing chain of `parse_json_from_response`: strict `json.loads`
first, then the `strict=False` retry. -/
def loadsWithFallback (s : Str) : Option JsonValue :=
  match jsonLoads true s with
  | some v => some v
  | none => jsonLoads false s

/-- Step 2 test of `parse_json_from_response`:
`stripped_response.startswith('{') or stripped_response.startswith('[')`. -/
def startsWithBraceOrBracket (s : Str) : Bool :=
  match s with
  | '\x7b' :: _ => true
  | '[' :: _ => true
  | _ => false

/-- Candidate-text selection of `parse_json_from_response` (steps 1-3 of the
source): marker block first, then the whole stripped response if it starts
with a brace or bracket, then the greedy object span, then the greedy array
span. -/
def jsonCandidate (t : Str) : Option Str :=
  match markerInterior t with
  | some j => some j
  | none =>
    let stripped := pyStrip t
    if startsWithBraceOrBracket stripped then some stripped
    else
      match braceSpan t with
      | some sp => some (pyStrip sp)
      | none =>
        match bracketSpan t with
        | some sp => some (pyStrip sp)
        | none => none

/-- Whether a parsed value is a mapping or a list (`isinstance(x, (dict, list))`). -/
def isContainer : JsonValue → Bool
  | JsonValue.arr _ => true
  | JsonValue.obj _ => true
  | _ => false

/-- Model of `SlideGenerator.parse_json_from_response`: candidate selection,
Python truthiness of the candidate text, the strict/lenient parsing chain, and
the final container check; every failure path yields the empty dict. -/
def parse_json_from_response (t : Str) : JsonValue :=
  match jsonCandidate t with
  | none => JsonValue.obj []
  | some jt =>
    if jt = [] then JsonValue.obj []
    else
      match loadsWithFallback jt with
      | none => JsonValue.obj []
      | some v => if isContainer v then v else JsonValue.obj []

/-- First-match lookup in a dict's entry list. -/
def lookupEntries : List (Str × JsonValue) → Str → Option JsonValue
  | [], _ => none
  | (k, v) :: rest, key => if k = key then some v else lookupEntries rest key

/-- `isinstance(x, dict)`. -/
def isDict : JsonValue → Bool
  | JsonValue.obj _ => true
  | _ => false

/-- Python `d.get(k)` (returning `None` when absent).  Call sites keep the
receiver a dict, as the source does (a non-dict receiver raises in Python and
is modelled by the caller). -/
def pyDictGet? (j : JsonValue) (k : Str) : Option JsonValue :=
  match j with
  | JsonValue.obj entries => lookupEntries entries k
  | _ => none

/-- Python `d.get(k, default)`. -/
def pyDictGetD (j : JsonValue) (k : Str) (d : JsonValue) : JsonValue :=
  (pyDictGet? j k).getD d

/-- Python `k in d`. -/
def hasKey (j : JsonValue) (k : Str) : Bool := (pyDictGet? j k).isSome

/-- Python `d[k] = v` on a dict value (no-op on non-dicts, which the source
never mutates). -/
def objSet (j : JsonValue) (k : Str) (v : JsonValue) : JsonValue :=
  match j with
  | JsonValue.obj entries => JsonValue.obj (objInsert entries k v)
  | other => other

/-- Python truthiness of a parsed JSON value. -/
def pyTruthy : JsonValue → Bool
  | JsonValue.null => false
  | JsonValue.bool b => b
  | JsonValue.num n => n != 0
  | JsonValue.str s => !s.isEmpty
  | JsonValue.arr l => !l.isEmpty
  | JsonValue.obj e => !e.isEmpty

mutual

/-- Python `str()` of a parsed JSON value, as used by f-string interpolation.
Containers render via `repr` of their elements; their exact spelling is an
approximation (no escaping inside rendered strings), which no claim relies
on — the pipeline only interpolates strings and numbers. -/
def pyStr : JsonValue → Str
  | JsonValue.null => "None".data
  | JsonValue.bool true => "True".data
  | JsonValue.bool false => "False".data
  | JsonValue.num n => (toString n).data
  | JsonValue.str s => s
  | JsonValue.arr l => '[' :: (pyReprList l ++ [']'])
  | JsonValue.obj e => '\x7b' :: (pyReprEntries e ++ ['\x7d'])

/-- Python `repr()` used for elements inside rendered containers. -/
def pyRepr : JsonValue → Str
  | JsonValue.str s => '\x27' :: (s ++ ['\x27'])
  | JsonValue.arr l => '[' :: (pyReprList l ++ [']'])
  | JsonValue.obj e => '\x7b' :: (pyReprEntries e ++ ['\x7d'])
  | v => pyStr v

def pyReprList : List JsonValue → Str
  | [] => []
  | [x] => pyRepr x
  | x :: rest => pyRepr x ++ ", ".data ++ pyReprList rest

def pyReprEntries : List (Str × JsonValue) → Str
  | [] => []
  | [(k, v)] => '\x27' :: (k ++ "\x27: ".data ++ pyRepr v)
  | (k, v) :: rest =>
    '\x27' :: (k ++ "\x27: ".data ++ pyRepr v ++ ", ".data ++ pyReprEntries rest)

end

/-- The five recognised slide types of `generate_slide_structure`. -/
def valid_slide_types : List JsonValue :=
  [JsonValue.str "title_slide".data, JsonValue.str "content_slide".data,
   JsonValue.str "bullet_point_slide".data, JsonValue.str "image_slide".data,
   JsonValue.str "conclusion_slide".data]

/-- The validation loop of `generate_slide_structure` (`for i, slide in
enumerate(slide_structure)`): keeps dict items that have both `slide_title`
and `slide_type`, coerces an unrecognised `slide_type` to `content_slide`,
and sets `slide["slide_number"] = i + 1` with `i` the enumeration index of
the parsed input list. -/
def processSlides : List JsonValue → Nat → List JsonValue
  | [], _ => []
  | slide :: rest, i =>
    if isDict slide && hasKey slide "slide_title".data && hasKey slide "slide_type".data then
      let st := pyDictGetD slide "slide_type".data JsonValue.null
      let slide1 :=
        if valid_slide_types.any (fun t => jeq st t) then slide
        else objSet slide "slide_type".data (JsonValue.str "content_slide".data)
      let slide2 := objSet slide1 "slide_number".data (JsonValue.num (Int.ofNat (i + 1)))
      slide2 :: processSlides rest (i + 1)
    else
      processSlides rest (i + 1)

/-- Post-extraction part of `generate_slide_structure`: a non-list or empty
extraction result is a hard stop returning the empty sequence, anything else
goes through the validation loop. -/
def generate_slide_structure_post (parsed : JsonValue) : List JsonValue :=
  match parsed with
  | JsonValue.arr l => if l.isEmpty then [] else processSlides l 0
  | _ => []

/-- Model of `generate_slide_structure`, with the Groq call abstracted to the
response text it produces: the response is run through the extractor and then
validated. -/
def generate_slide_structure (llmResponse : Str) : List JsonValue :=
  generate_slide_structure_post (parse_json_from_response llmResponse)

/-- The skip test of `create_powerpoint`:
`if not content or content.get("error"): continue`.  The `or` short-circuits,
so `.get` is only reached on truthy content (the model's callers restrict
payloads to dicts or falsy values, as the pipeline produces; a truthy
non-dict would raise `AttributeError` in Python). -/
def powerpointSkips (content : JsonValue) : Bool :=
  if pyTruthy content = false then true
  else pyTruthy (pyDictGetD content "error".data JsonValue.null)

/-- Number of slides `create_powerpoint` adds to the deck: the loop runs over
`range(min(len(slide_structure), len(slide_contents)))` and each non-skipped
index adds exactly one slide (`prs.slides.add_slide`); everything after the
skip test only adds shapes to that slide. -/
def create_powerpoint_count (slide_structure slide_contents : List JsonValue) : Nat :=
  (List.range (min slide_structure.length slide_contents.length)).countP
    (fun i =>
      match slide_contents[i]? with
      | some c => !(powerpointSkips c)
      | none => false)

/-- The `json_rules` block shared by every content prompt. -/
def json_rules : Str :=
  ("\n            Your response MUST follow these rules STRICTLY:\n            1. Provide ONLY JSON output strictly between START OF JSON and END OF JSON markers. Do NOT include any text before START OF JSON or after END OF JSON.\n            2. The JSON MUST be a valid JSON object.\n            3. Ensure all strings in the JSON use double quotes (\"\") and escape special characters if needed (e.g., \\n, \\\").\n            ").data

/-- Default `explanation_guidance` for a `content_slide`. -/
def defaultGuidance : Str := "Explain the core concept clearly and concisely.".data

/-- Lead-in `explanation_guidance` used when the next slide is an
`image_slide` with the same title. -/
def leadInGuidance : Str :=
  "This slide explains the concept that will be visualized in the *next* image slide. Focus on setting up the visual explanation. Keep text concise.".data

/-- The `title_slide` prompt f-string. -/
def titleSlidePrompt (titleV : JsonValue) (complexity topic dateStr : Str) : Str :=
  "\n                Create content for the title slide of a ".data ++
  pyLower complexity ++ " lecture on \"".data ++ topic ++
  "\".\n                Slide title: \"".data ++ pyStr titleV ++
  "\"\n                ".data ++ json_rules ++
  "\n                START OF JSON\n                \x7b\n                    \"title\": \"".data ++
  pyStr titleV ++
  "\",\n                    \"subtitle\": \"An Engaging Subtitle Relevant to ".data ++
  topic ++
  "\",\n                    \"presenter\": \"Your Name / Affiliation\",\n                    \"date\": \"".data ++
  dateStr ++ "\"\n                \x7d\n                END OF JSON\n                ".data

/-- Literal text of the `content_slide` prompt before `explanation_guidance`. -/
def contentPromptPrefix (numV titleV typeV : JsonValue) (complexity topic : Str) : Str :=
  "\n                Create concise text content for slide ".data ++ pyStr numV ++
  ", titled \"".data ++ pyStr titleV ++ "\" (type: ".data ++ pyStr typeV ++
  "), for a ".data ++ pyLower complexity ++ " lecture on \"".data ++ topic ++
  "\".\n                ".data

/-- Literal text of the `content_slide` prompt after `explanation_guidance`. -/
def contentPromptSuffix (titleV : JsonValue) (topic : Str) : Str :=
  " Aim for 2-3 short paragraphs or key points.\n                ".data ++ json_rules ++
  "\n                START OF JSON\n                \x7b\n                    \"main_content\": [\n                        \"Paragraph 1: Introduce the core idea of \x27".data ++
  pyStr titleV ++
  "\x27.\",\n                        \"Paragraph 2: Elaborate with key details or context relevant to ".data ++
  topic ++
  ".\",\n                        \"Paragraph 3 (Optional): Add significance or a brief example.\"\n                    ],\n                    \"needs_image\": false\n                \x7d\n                END OF JSON\n                ".data

/-- The `bullet_point_slide` prompt f-string. -/
def bulletSlidePrompt (numV titleV typeV : JsonValue) (complexity topic : Str) : Str :=
  "\n                Create 3-6 concise bullet points for slide ".data ++ pyStr numV ++
  ", titled \"".data ++ pyStr titleV ++ "\" (type: ".data ++ pyStr typeV ++
  "), for a ".data ++ pyLower complexity ++ " lecture on \"".data ++ topic ++
  "\".\n                Each point should be short and impactful (under ~150 characters).\n                ".data ++
  json_rules ++
  "\n                START OF JSON\n                \x7b\n                    \"main_content\": [\n                        \"Key point 1 about \x27".data ++
  pyStr titleV ++
  "\x27.\",\n                        \"Key point 2, distinct and clear.\",\n                        \"Key point 3, adding another facet.\",\n                        \"Key point 4 (if necessary).\",\n                        \"Key point 5 (if necessary).\"\n                    ],\n                    \"needs_image\": false\n                \x7d\n                END OF JSON\n                ".data

/-- The `image_slide` prompt f-string. -/
def imageSlidePrompt (numV titleV typeV : JsonValue) (complexity topic : Str) : Str :=
  "\n                 Create content for slide ".data ++ pyStr numV ++
  ", titled \"".data ++ pyStr titleV ++ "\" (type: ".data ++ pyStr typeV ++
  "), for a ".data ++ pyLower complexity ++ " lecture on \"".data ++ topic ++
  "\".\n                 This slide needs a general illustrative image from Pollinations.ai.\n                 Generate a descriptive prompt for Pollinations.ai to create a relevant and professional image.\n                 Also include a short caption for the slide. If any text is included in image strictly make sure the spelling is correct.\n                 ".data ++
  json_rules ++
  "\n                 START OF JSON\n                 \x7b\n                     \"main_content\": [\n                         \"Caption: Visual illustration related to ".data ++
  pyStr titleV ++
  "\"\n                     ],\n                     \"needs_image\": true,\n                     \"image_description\": \"A clear, professional illustration depicting [concept related to \x27".data ++
  pyStr titleV ++ "\x27] for a ".data ++ pyLower complexity ++ " lecture on \x27".data ++
  topic ++
  "\x27. Style: educational, clean background, high resolution.\"\n                 \x7d\n                 END OF JSON\n                 ".data

/-- The `conclusion_slide` prompt f-string. -/
def conclusionSlidePrompt (numV titleV typeV : JsonValue) (complexity topic : Str) : Str :=
  "\n                Create content for the final conclusion slide ".data ++ pyStr numV ++
  ", titled \"".data ++ pyStr titleV ++ "\" (type: ".data ++ pyStr typeV ++
  "), for a ".data ++ pyLower complexity ++ " lecture on \"".data ++ topic ++
  "\".\n                Summarize 2-4 key takeaways concisely.\n                ".data ++
  json_rules ++
  "\n                START OF JSON\n                \x7b\n                    \"main_content\": [\n                        \"Key Takeaway 1: [Summarize main point from lecture]\",\n                        \"Key Takeaway 2: [Summarize another crucial concept]\",\n                        \"Key Takeaway 3: [Summarize application or implication]\",\n                        \"Next Steps / Questions?\"\n                    ],\n                    \"needs_image\": false\n                \x7d\n                END OF JSON\n                ".data

/-- The fallback prompt f-string for an unknown slide type. -/
def unknownSlidePrompt (numV titleV typeV : JsonValue) (complexity topic : Str) : Str :=
  "\n                Create generic content for slide ".data ++ pyStr numV ++
  ", titled \"".data ++ pyStr titleV ++ "\" (type: ".data ++ pyStr typeV ++
  "), for a ".data ++ pyLower complexity ++ " lecture on \"".data ++ topic ++
  "\".\n                ".data ++ json_rules ++
  "\n                START OF JSON\n                \x7b\n                    \"main_content\": [\n                        \"Placeholder content for \x27".data ++
  pyStr titleV ++ "\x27.\",\n                        \"This slide type (\x27".data ++
  pyStr typeV ++
  "\x27) needs specific handling.\"\n                    ],\n                    \"needs_image\": False # Assuming unknown type doesn\x27t need image by default\n                \x7d\n                END OF JSON\n                ".data

/-- Python list indexing `l[i]` with an `int` index: negative indices count
from the end, an index out of `[-len, len)` raises `IndexError` (`none`). -/
def pyListIndex (l : List JsonValue) (i : Int) : Option JsonValue :=
  let j : Int := if i < 0 then i + l.length else i
  if 0 ≤ j ∧ j < (l.length : Int) then l.get? j.toNat else none

/-- `slide_info.get("slide_title", "Untitled Slide")`. -/
def slideTitleOf (info : JsonValue) : JsonValue :=
  pyDictGetD info "slide_title".data (JsonValue.str "Untitled Slide".data)

/-- `slide_info.get("slide_type", "content_slide")`. -/
def slideTypeOf (info : JsonValue) : JsonValue :=
  pyDictGetD info "slide_type".data (JsonValue.str "content_slide".data)

/-- `slide_info.get("slide_number", 0)`. -/
def slideNumberOf (info : JsonValue) : JsonValue :=
  pyDictGetD info "slide_number".data (JsonValue.num 0)

/-- The `content_slide` lookahead of `generate_slide_content`: with the
processed structure available (`debug_slide_structure` in session state), the
next descriptor is read at 0-based index `slide_number` — the current slide's
1-based number — and `is_explanation_for_image` holds when it has the same
`slide_title` and type `image_slide`.  `none` models the uncaught-in-branch
Python errors (non-int `slide_number` in the `<` comparison, an index below
`-len`, a non-dict next descriptor), which the enclosing `try` turns into the
exception payload. -/
def isExplanationCheck (structOpt : Option (List JsonValue))
    (numV titleV : JsonValue) : Option Bool :=
  match structOpt with
  | none => some false
  | some l =>
    match numV with
    | JsonValue.num m =>
      if m < (l.length : Int) then
        match pyListIndex l m with
        | none => none
        | some next =>
          if isDict next then
            some (jeq (pyDictGetD next "slide_title".data JsonValue.null) titleV &&
                  jeq (pyDictGetD next "slide_type".data JsonValue.null)
                    (JsonValue.str "image_slide".data))
          else none
      else some false
    | _ => none

/-- Prompt construction of `generate_slide_content` (lines 250-378 of the
source): field extraction with defaults, the five type-keyed templates, the
`content_slide` lookahead, and the generic fallback.  `none` models an
exception inside the branch (caught by the function's outer `try`). -/
def buildContentPrompt (structOpt : Option (List JsonValue)) (info : JsonValue)
    (topic complexity dateStr : Str) : Option Str :=
  if isDict info then
    let titleV := slideTitleOf info
    let typeV := slideTypeOf info
    let numV := slideNumberOf info
    if jeq typeV (JsonValue.str "title_slide".data) then
      some (titleSlidePrompt titleV complexity topic dateStr)
    else if jeq typeV (JsonValue.str "content_slide".data) then
      match isExplanationCheck structOpt numV titleV with
      | none => none
      | some isExpl =>
        let guidance := if isExpl then leadInGuidance else defaultGuidance
        some (contentPromptPrefix numV titleV typeV complexity topic ++
              guidance ++ contentPromptSuffix titleV topic)
    else if jeq typeV (JsonValue.str "bullet_point_slide".data) then
      some (bulletSlidePrompt numV titleV typeV complexity topic)
    else if jeq typeV (JsonValue.str "image_slide".data) then
      some (imageSlidePrompt numV titleV typeV complexity topic)
    else if jeq typeV (JsonValue.str "conclusion_slide".data) then
      some (conclusionSlidePrompt numV titleV typeV complexity topic)
    else
      some (unknownSlidePrompt numV titleV typeV complexity topic)
  else none

/-- Characters `urllib.parse.quote` leaves unencoded with the default
`safe='/'`: unreserved characters plus the slash. -/
def quoteSafe (c : Char) : Bool :=
  c.isAlphanum || c == '_' || c == '.' || c == '-' || c == '~' || c == '/'

/-- UTF-8 bytes of a character. -/
def utf8Bytes (c : Char) : List Nat :=
  let n := c.toNat
  if n < 0x80 then [n]
  else if n < 0x800 then [0xC0 + n / 0x40, 0x80 + n % 0x40]
  else if n < 0x10000 then
    [0xE0 + n / 0x1000, 0x80 + (n / 0x40) % 0x40, 0x80 + n % 0x40]
  else
    [0xF0 + n / 0x40000, 0x80 + (n / 0x1000) % 0x40, 0x80 + (n / 0x40) % 0x40,
     0x80 + n % 0x40]

def hexDigitChar (n : Nat) : Char :=
  if n < 10 then Char.ofNat ('0'.toNat + n) else Char.ofNat ('A'.toNat + n - 10)

/-- Model of `urllib.parse.quote` (default `safe='/'`): percent-encodes the
UTF-8 bytes of every non-safe character, uppercase hex. -/
def pyQuote (s : Str) : Str :=
  s.flatMap (fun c =>
    if quoteSafe c then [c]
    else (utf8Bytes c).flatMap (fun b => ['%', hexDigitChar (b / 16), hexDigitChar (b % 16)]))

/-- `self.placeholder_image_url`, returned on any exception. -/
def placeholder_image_url : Str :=
  "https://placehold.co/1024x576/eee/ccc?text=Image+Gen+Error".data

/-- Model of `generate_pollinations_image`: truncates a description longer
than 300 characters and appends `"..."`, wraps it in the fixed prompt
template, percent-encodes, and appends the query parameters.  `base` is
`self.pollinations_base_url` and `ts` the `int(time.time())` cache buster. -/
def generate_pollinations_image (base description context : Str) (ts : Nat) : Str :=
  let description :=
    if description.length > 300 then description.take 300 ++ "...".data
    else description
  let image_prompt :=
    "Educational illustration: ".data ++ description ++ ". Context: ".data ++
    context ++ ". Style: clean, professional, clear, high resolution.".data
  let encoded_prompt := pyQuote image_prompt
  base ++ encoded_prompt ++ "?width=1024&height=576&seed=".data ++
  (toString ts).data ++ "&nologo=true".data

/-- The standard error sentinel payload of `generate_slide_content`. -/
def errorSentinel : JsonValue :=
  JsonValue.obj
    [("main_content".data, JsonValue.arr [JsonValue.str "Error: Could not generate content.".data]),
     ("needs_image".data, JsonValue.bool false),
     ("error".data, JsonValue.str "Failed to generate or parse content".data)]

/-- Model of `generate_slide_content`, with the Groq call abstracted as
`llm : prompt ↦ response text`, `base`/`ts` the Pollinations parameters and
`dateStr` the formatted current date.  The response goes through
`parse_json_from_response`; a non-dict or falsy result is replaced by the
error sentinel; an `image_slide` payload asking for an image gets `image_url`
attached (a container-typed `image_description` is approximated by the
placeholder; the pipeline only produces strings there).  `none` models the
function's outer `except` branch, whose payload embeds the Python exception
message. -/
def generate_slide_content (llm : Str → Str) (base : Str) (ts : Nat)
    (structOpt : Option (List JsonValue)) (slide_info : JsonValue)
    (topic complexity dateStr : Str) : Option JsonValue :=
  if isDict slide_info then
    let titleV := slideTitleOf slide_info
    let typeV := slideTypeOf slide_info
    match buildContentPrompt structOpt slide_info topic complexity dateStr with
    | none => none
    | some prompt =>
      let content0 := parse_json_from_response (llm prompt)
      let content := if isDict content0 && pyTruthy content0 then content0 else errorSentinel
      if pyTruthy (pyDictGetD content "needs_image".data JsonValue.null) &&
         jeq typeV (JsonValue.str "image_slide".data) then
        match pyDictGet? content "image_description".data with
        | some (JsonValue.str d) =>
          some (objSet content "image_url".data
            (JsonValue.str (generate_pollinations_image base d topic ts)))
        | none =>
          some (objSet content "image_url".data
            (JsonValue.str (generate_pollinations_image base
              ("Illustration for ".data ++ pyStr titleV) topic ts)))
        | some _ =>
          some (objSet content "image_url".data (JsonValue.str placeholder_image_url))
      else some content
  else none

/-- The `slide_num` computation of the batch loop in
`create_slides_with_content`: `slide_info.get("slide_number", i + 1)`.
`none` models the `TypeError` a non-int value raises at the
`1 <= slide_num <= total_slides` comparison. -/
def slideNumRaw (info : JsonValue) (i : Nat) : Option Int :=
  match pyDictGet? info "slide_number".data with
  | none => some (Int.ofNat (i + 1))
  | some (JsonValue.num m) => some m
  | some _ => none

/-- The batch loop of `create_slides_with_content` over the generated
structure: for each descriptor, generate its content (`f`, total because
`generate_slide_content` catches its own exceptions), then place the payload
at `slide_contents[slide_num - 1]` when `1 <= slide_num <= total_slides`,
else at `slide_contents[i]` when `i < len(slide_contents)`, else append.
`trace` records each `slide_info` passed to content generation, in call
order.  `none` models an uncaught exception of the loop itself. -/
def create_slides_loop (f : JsonValue → JsonValue) (n : Nat) :
    List JsonValue → Nat → List (Option JsonValue) → List JsonValue →
    Option (List (Option JsonValue) × List JsonValue)
  | [], _, acc, trace => some (acc, trace)
  | info :: rest, i, acc, trace =>
    if isDict info then
      let content := f info
      match slideNumRaw info i with
      | none => none
      | some m =>
        let acc' :=
          if 1 ≤ m ∧ m ≤ (n : Int) then acc.set (m - 1).toNat (some content)
          else if i < acc.length then acc.set i (some content)
          else acc ++ [some content]
        create_slides_loop f n rest (i + 1) acc' (trace ++ [info])
    else none

/-- Model of `create_slides_with_content` after structure generation, with
content generation abstracted as `f`: an empty structure is the hard-stop
`return [], []`; otherwise the batch loop fills a `[None] * len(structure)`
array and the `None` entries are filtered out
(`final_contents = [c for c in slide_contents if c is not None]`).  Returns
the final contents together with the trace of content-generation calls. -/
def create_slides_with_content (f : JsonValue → JsonValue)
    (struct : List JsonValue) : Option (List JsonValue × List JsonValue) :=
  if struct.isEmpty then some ([], [])
  else
    match create_slides_loop f struct.length struct 0
        (List.replicate struct.length none) [] with
    | none => none
    | some (acc, trace) => some (acc.filterMap id, trace)

/-- Whether the value under key `k`, if any, is a string. -/
def strOrAbsent (c : JsonValue) (k : Str) : Bool :=
  match pyDictGet? c k with
  | none => true
  | some (JsonValue.str _) => true
  | some _ => false

/-- Payload shapes for which the (unmodelled) rendering part of
`create_powerpoint` completes without a Python-level type error: `None` or a
dict whose title-slide text fields, when present, are strings.  The skip
logic itself is total on these. -/
def payloadOK (c : JsonValue) : Bool :=
  jeq c JsonValue.null ||
  (isDict c && strOrAbsent c "title".data && strOrAbsent c "subtitle".data &&
   strOrAbsent c "presenter".data && strOrAbsent c "date".data)

/-- Descriptor shapes for which the rendering part of `create_powerpoint`
completes: a dict whose `slide_title` and `slide_type`, when present, are
strings. -/
def descriptorOK (d : JsonValue) : Bool :=
  isDict d && strOrAbsent d "slide_title".data && strOrAbsent d "slide_type".data

/-- Claim-side predicate (the amended C3, and C10): a payload that yields an
output slide — truthy, with a falsy value under `error` (absent included). -/
def renderedPayload (c : JsonValue) : Bool :=
  pyTruthy c && !pyTruthy (pyDictGetD c "error".data JsonValue.null)

/-- Claim-side count following C3's original words: payloads, among the first
`min` indices, that are present (not `None`) and carry no `error` key at
all. -/
def presentNoErrorKeyCount (struct contents : List JsonValue) : Nat :=
  (contents.take (min struct.length contents.length)).countP
    (fun c => !(jeq c JsonValue.null) && !(hasKey c "error".data))

/-- Whether `slide_info.get("slide_number", i + 1)` yields a value usable in
the integer comparison of the batch loop: the key is absent or holds a
number. -/
def slideNumOK (info : JsonValue) : Bool :=
  match pyDictGet? info "slide_number".data with
  | none => true
  | some (JsonValue.num _) => true
  | some _ => false

/-- Amended-claim-side target index of the batch loop: `slide_number - 1`
when `1 <= slide_number <= n`, else the loop index `i` (the source's append
branch is unreachable because `i < len(slide_contents)` always holds). -/
def amendedTarget (n : Nat) (info : JsonValue) (i : Nat) : Nat :=
  match slideNumRaw info i with
  | some m => if 1 ≤ m ∧ m ≤ (n : Int) then (m - 1).toNat else i
  | none => i

/-- Amended-claim-side placement: every payload is placed (overwriting) at
its `amendedTarget`. -/
def amendedPlaceLoop (f : JsonValue → JsonValue) (n : Nat) :
    List JsonValue → Nat → List (Option JsonValue) → List (Option JsonValue)
  | [], _, acc => acc
  | info :: rest, i, acc =>
    amendedPlaceLoop f n rest (i + 1) (acc.set (amendedTarget n info i) (some (f info)))

/-- Original-claim-side placement (C8's words): a payload is placed at index
`slide_number - 1` of the pre-sized array when in range, and appended — not
indexed — when `slide_number` is outside `1..n`. -/
def claimedPlacementLoop (f : JsonValue → JsonValue) (n : Nat) :
    List JsonValue → Nat → List (Option JsonValue) → List (Option JsonValue)
  | [], _, acc => acc
  | info :: rest, i, acc =>
    match slideNumRaw info i with
    | some m =>
      claimedPlacementLoop f n rest (i + 1)
        (if 1 ≤ m ∧ m ≤ (n : Int) then acc.set (m - 1).toNat (some (f info))
         else acc ++ [some (f info)])
    | none => claimedPlacementLoop f n rest (i + 1) acc

/-- Reachability input for the C8 counterexample: a 99-element extracted
structure whose only valid items sit at 0-based indices 1 and 98, so the
validation loop numbers them 2 and 99. -/
def c8Input : JsonValue :=
  JsonValue.arr
    ([JsonValue.num 0,
      JsonValue.obj [("slide_title".data, JsonValue.str "A".data),
                     ("slide_type".data, JsonValue.str "content_slide".data)]] ++
     List.replicate 96 (JsonValue.num 0) ++
     [JsonValue.obj [("slide_title".data, JsonValue.str "B".data),
                     ("slide_type".data, JsonValue.str "image_slide".data)]])

/-- The first retained descriptor of `c8Input` (output position 1, numbered 2). -/
def c8DescA : JsonValue :=
  JsonValue.obj [("slide_title".data, JsonValue.str "A".data),
                 ("slide_type".data, JsonValue.str "content_slide".data),
                 ("slide_number".data, JsonValue.num 2)]

/-- The second retained descriptor of `c8Input` (output position 2, numbered 99). -/
def c8DescB : JsonValue :=
  JsonValue.obj [("slide_title".data, JsonValue.str "B".data),
                 ("slide_type".data, JsonValue.str "image_slide".data),
                 ("slide_number".data, JsonValue.num 99)]

theorem containsSub_here (g B : Str) : containsSub (g ++ B) g = true := by
  have h : g.isPrefixOf (g ++ B) = true := by simp [List.isPrefixOf_iff_prefix]
  cases hx : g ++ B with
  | nil => rw [hx] at h; simpa [containsSub] using h
  | cons c rest => rw [hx] at h; simp [containsSub, h]

theorem containsSub_append_mid (A g B : Str) : containsSub (A ++ (g ++ B)) g = true := by
  induction A with
  | nil => simpa using containsSub_here g B
  | cons a A ih => simp [containsSub, ih]

theorem append_mid_ne (A B g1 g2 : Str) (h : g1.length ≠ g2.length) :
    A ++ (g1 ++ B) ≠ A ++ (g2 ++ B) := by
  intro he
  apply h
  have hl := congrArg List.length he
  simp [List.length_append] at hl
  omega

theorem loadsWithFallback_nil : loadsWithFallback ([] : Str) = none := rfl

/-- Common final step of the extractor proofs: when candidate selection
yields `t` and the parsing chain accepts `t` as a container, the extractor
returns that container. -/
theorem parse_of_candidate (s t : Str) (v : JsonValue)
    (hc : jsonCandidate s = some t)
    (h2 : loadsWithFallback t = some v)
    (h3 : isContainer v = true) :
    parse_json_from_response s = v := by
  have hnil : t ≠ [] := by
    intro h
    rw [h, loadsWithFallback_nil] at h2
    cases h2
  unfold parse_json_from_response
  rw [hc]
  simp [hnil, h2, h3]

/-- C4 (confirmed): the response extractor is a total function (the Python
body catches every exception): its result is always a mapping or a list; when
no candidate text is located it returns the empty mapping; when the candidate
does not parse it returns the empty mapping; and when parsing succeeds with a
scalar or null (not a container) it also returns the empty mapping. -/
theorem c4_extractor_never_raises (s : Str) :
    isContainer (parse_json_from_response s) = true ∧
    (jsonCandidate s = none → parse_json_from_response s = JsonValue.obj []) ∧
    (∀ t, jsonCandidate s = some t → loadsWithFallback t = none →
        parse_json_from_response s = JsonValue.obj []) ∧
    (∀ t v, jsonCandidate s = some t → loadsWithFallback t = some v →
        isContainer v = false → parse_json_from_response s = JsonValue.obj []) := by
  unfold parse_json_from_response
  cases hc : jsonCandidate s with
  | none =>
    refine ⟨rfl, fun _ => rfl, ?_, ?_⟩
    · intro t h _; cases h
    · intro t v h _ _; cases h
  | some jt =>
    by_cases hnil : jt = []
    · subst hnil
      refine ⟨by simp [isContainer], ?_, ?_, ?_⟩
      · intro h; cases h
      · intro t h hl; simp
      · intro t v h hl hcont; simp
    · cases hload : loadsWithFallback jt with
      | none =>
        refine ⟨by simp [hnil, hload, isContainer], ?_, ?_, ?_⟩
        · intro h; cases h
        · intro t h hl; simp [hnil, hload]
        · intro t v h hl hcont
          cases h; rw [hload] at hl; cases hl
      | some v0 =>
        cases hcv : isContainer v0 with
        | true =>
          refine ⟨by simp [hnil, hload, hcv], ?_, ?_, ?_⟩
          · intro h; cases h
          · intro t h hl; cases h; rw [hload] at hl; cases hl
          · intro t v h hl hcont
            cases h; rw [hload] at hl; cases hl
            simp [hcont] at hcv
        | false =>
          refine ⟨by simp [hnil, hload, hcv]; rfl, ?_, ?_, ?_⟩
          · intro h; cases h
          · intro t h hl; cases h; rw [hload] at hl; cases hl
          · intro t v h hl hcont
            cases h; rw [hload] at hl; cases hl
            simp [hnil, hload, hcv]

/-- C4 witness: a response whose marker block contains the scalar `5` —
located and parsed, then rejected by the container check. -/
theorem c4_witness :
    parse_json_from_response "START OF JSON 5 END OF JSON".data = JsonValue.obj [] :=
  (c4_extractor_never_raises _).2.2.2 ("5".data) (JsonValue.num 5) rfl rfl rfl

/-- C5 (confirmed): whenever the marker search of the extractor finds a
`START OF JSON ... END OF JSON` block (the block after the first start
marker — surrounding prose never reaches the parser) whose stripped interior
parses to a mapping or list, the extractor returns exactly that value. -/
theorem c5_marker_block_extraction (s j : Str) (v : JsonValue)
    (h1 : markerInterior s = some j)
    (h2 : loadsWithFallback j = some v)
    (h3 : isContainer v = true) :
    parse_json_from_response s = v := by
  have hc : jsonCandidate s = some j := by unfold jsonCandidate; rw [h1]
  exact parse_of_candidate s j v hc h2 h3

/-- C5 witness: prose before and after the markers is ignored. -/
theorem c5_witness :
    parse_json_from_response
      "Here you go! START OF JSON \x7b\"a\": 1, \"b\": [2, 3]\x7d END OF JSON Enjoy.".data
    = JsonValue.obj [("a".data, JsonValue.num 1),
        ("b".data, JsonValue.arr [JsonValue.num 2, JsonValue.num 3])] :=
  c5_marker_block_extraction _ ("\x7b\"a\": 1, \"b\": [2, 3]\x7d".data) _ rfl rfl rfl

/-- C6 counterexample: the object fallback of the extractor is the greedy
regex `({.*})` — first `{` to last `}` — not a search for the first
well-formed span.  This response contains the well-formed object span
`{"a": 1}` (and no markers, and no leading brace after stripping), yet
extraction returns the empty mapping because the greedy span
`{"a": 1} mid {"b": 2}` does not parse. -/
theorem c6_span_counterexample :
    markerInterior "note \x7b\"a\": 1\x7d mid \x7b\"b\": 2\x7d end".data = none ∧
    startsWithBraceOrBracket
      (pyStrip "note \x7b\"a\": 1\x7d mid \x7b\"b\": 2\x7d end".data) = false ∧
    containsSub "note \x7b\"a\": 1\x7d mid \x7b\"b\": 2\x7d end".data
      "\x7b\"a\": 1\x7d".data = true ∧
    loadsWithFallback "\x7b\"a\": 1\x7d".data
      = some (JsonValue.obj [("a".data, JsonValue.num 1)]) ∧
    parse_json_from_response "note \x7b\"a\": 1\x7d mid \x7b\"b\": 2\x7d end".data
      = JsonValue.obj [] ∧
    JsonValue.obj [] ≠ JsonValue.obj [("a".data, JsonValue.num 1)] :=
  ⟨rfl, rfl, rfl, rfl, rfl, by simp⟩

/-- C6 (amended): for a response with no markers and no leading brace or
bracket after stripping, extraction takes the greedy span from the first
`{` to the last `}` (or, when no such span exists, from the first `[` to the
last `]`) and returns its parsed value whenever that stripped span parses to
a mapping or list. -/
theorem c6_span_extraction_amended (s : Str) :
    (∀ sp v, markerInterior s = none →
        startsWithBraceOrBracket (pyStrip s) = false →
        braceSpan s = some sp →
        loadsWithFallback (pyStrip sp) = some v → isContainer v = true →
        parse_json_from_response s = v) ∧
    (∀ sp v, markerInterior s = none →
        startsWithBraceOrBracket (pyStrip s) = false →
        braceSpan s = none → bracketSpan s = some sp →
        loadsWithFallback (pyStrip sp) = some v → isContainer v = true →
        parse_json_from_response s = v) := by
  constructor
  · intro sp v hm hsw hbs hl hcont
    have hc : jsonCandidate s = some (pyStrip sp) := by
      unfold jsonCandidate; rw [hm]; simp [hsw, hbs]
    exact parse_of_candidate s _ v hc hl hcont
  · intro sp v hm hsw hbs har hl hcont
    have hc : jsonCandidate s = some (pyStrip sp) := by
      unfold jsonCandidate; rw [hm]; simp [hsw, hbs, har]
    exact parse_of_candidate s _ v hc hl hcont

/-- C6 witness: an embedded object span and an embedded array span, each
recovered from surrounding prose. -/
theorem c6_witness :
    parse_json_from_response "The result is \x7b\"k\": 3\x7d as requested".data
      = JsonValue.obj [("k".data, JsonValue.num 3)] ∧
    parse_json_from_response "The result is [1, 2] as requested".data
      = JsonValue.arr [JsonValue.num 1, JsonValue.num 2] :=
  ⟨(c6_span_extraction_amended _).1 ("\x7b\"k\": 3\x7d".data) _ rfl rfl rfl rfl rfl,
   (c6_span_extraction_amended _).2 ("[1, 2]".data) _ rfl rfl rfl rfl rfl rfl⟩

theorem countP_range_get (p : JsonValue → Bool) (C : List JsonValue) :
    ∀ n, n ≤ C.length →
      (List.range n).countP
          (fun i => match C[i]? with | some c => p c | none => false)
        = (C.take n).countP p := by
  intro n
  induction n with
  | zero => intro _; simp
  | succ k ih =>
    intro h
    rw [List.range_succ, List.countP_append, List.take_succ, List.countP_append]
    rw [ih (Nat.le_of_succ_le h)]
    congr 1
    rcases hg : C[k]? with _ | c
    · rw [List.getElem?_eq_none_iff] at hg
      omega
    · simp [List.countP_cons, hg, Option.toList]

theorem not_skip_eq_rendered (c : JsonValue) :
    (!(powerpointSkips c)) = renderedPayload c := by
  unfold powerpointSkips renderedPayload
  cases h : pyTruthy c <;> simp [h]

/-- C3 counterexample: the skip decision tests the truthiness of the value
under `error`, not the presence of the key.  A payload with `error: ""`
carries an `error` field yet produces one output slide, so the slide count is
not the count of present payloads carrying no `error` field. -/
theorem c3_count_counterexample :
    create_powerpoint_count
        [JsonValue.obj [("slide_title".data, JsonValue.str "A".data),
                        ("slide_type".data, JsonValue.str "content_slide".data),
                        ("slide_number".data, JsonValue.num 1)]]
        [JsonValue.obj [("main_content".data, JsonValue.arr [JsonValue.str "x".data]),
                        ("error".data, JsonValue.str [])]] = 1 ∧
    presentNoErrorKeyCount
        [JsonValue.obj [("slide_title".data, JsonValue.str "A".data),
                        ("slide_type".data, JsonValue.str "content_slide".data),
                        ("slide_number".data, JsonValue.num 1)]]
        [JsonValue.obj [("main_content".data, JsonValue.arr [JsonValue.str "x".data]),
                        ("error".data, JsonValue.str [])]] = 0 ∧
    (1 : Nat) ≠ 0 :=
  ⟨rfl, rfl, by decide⟩

/-- C3 (amended): deck assembly iterates exactly
`min(len(structure), len(contents))` indices, and the number of output slides
is the number of payloads among those indices that are truthy and whose
`error` value (if any) is falsy.  The well-formedness hypotheses restrict the
inputs to shapes on which the unmodelled rendering code raises no Python
type error. -/
theorem c3_assembly_count_amended (struct contents : List JsonValue)
    (hS : ∀ d ∈ struct, descriptorOK d = true)
    (hC : ∀ c ∈ contents, payloadOK c = true) :
    create_powerpoint_count struct contents
      = (contents.take (min struct.length contents.length)).countP renderedPayload := by
  unfold create_powerpoint_count
  rw [countP_range_get (fun c => !(powerpointSkips c)) contents _
      (Nat.min_le_right _ _)]
  exact List.countP_congr (fun c _ => by rw [not_skip_eq_rendered c])

/-- C3 witness: two descriptors; the first payload carries a truthy `error`
and is skipped, the second renders, so exactly one slide is produced. -/
theorem c3_witness :
    create_powerpoint_count
        [JsonValue.obj [("slide_title".data, JsonValue.str "A".data),
                        ("slide_type".data, JsonValue.str "content_slide".data)],
         JsonValue.obj [("slide_title".data, JsonValue.str "B".data),
                        ("slide_type".data, JsonValue.str "image_slide".data)]]
        [JsonValue.obj [("main_content".data,
            JsonValue.arr [JsonValue.str "Error: Could not generate content.".data]),
                        ("error".data, JsonValue.str "boom".data)],
         JsonValue.obj [("main_content".data, JsonValue.arr [JsonValue.str "x".data])]]
      = 1 := by
  rw [c3_assembly_count_amended _ _ (by decide) (by decide)]
  rfl

/-- C10 (confirmed): the deck assembler's skip decision is a truthiness test:
it skips exactly when the payload is falsy or the value under `error` is
truthy; consequently a truthy payload whose `error` value is falsy (for
example the empty string) is rendered as a normal output section. -/
theorem c10_skip_truthiness (c d : JsonValue)
    (hd : descriptorOK d = true) (hc : payloadOK c = true) :
    powerpointSkips c
      = (!(pyTruthy c) || pyTruthy (pyDictGetD c "error".data JsonValue.null)) ∧
    (pyTruthy c = true →
      pyTruthy (pyDictGetD c "error".data JsonValue.null) = false →
      create_powerpoint_count [d] [c] = 1) := by
  constructor
  · unfold powerpointSkips
    cases h : pyTruthy c <;> simp [h]
  · intro h1 h2
    unfold create_powerpoint_count
    simp [List.range_succ, List.countP_cons, powerpointSkips, h1, h2]

/-- C10 witness: a payload whose `error` key maps to the empty string is
rendered, contributing one slide. -/
theorem c10_witness :
    create_powerpoint_count
        [JsonValue.obj [("slide_title".data, JsonValue.str "T".data),
                        ("slide_type".data, JsonValue.str "content_slide".data)]]
        [JsonValue.obj [("main_content".data, JsonValue.arr [JsonValue.str "x".data]),
                        ("error".data, JsonValue.str [])]] = 1 :=
  (c10_skip_truthiness
      (JsonValue.obj [("main_content".data, JsonValue.arr [JsonValue.str "x".data]),
                      ("error".data, JsonValue.str [])])
      (JsonValue.obj [("slide_title".data, JsonValue.str "T".data),
                      ("slide_type".data, JsonValue.str "content_slide".data)])
      rfl rfl).2 rfl rfl

theorem c9_contains_width (X T : Str) :
    containsSub (X ++ "?width=1024&height=576&seed=".data ++ T ++ "&nologo=true".data)
      "width=1024&height=576".data = true := by
  have hA : "?width=1024&height=576&seed=".data
      = "?".data ++ ("width=1024&height=576".data ++ "&seed=".data) := rfl
  rw [hA]
  simp only [List.append_assoc]
  rw [← List.append_assoc X]
  exact containsSub_append_mid (X ++ "?".data) _ _

theorem c9_contains_nologo (X : Str) :
    containsSub (X ++ "&nologo=true".data) "&nologo=true".data = true := by
  have h := containsSub_append_mid X "&nologo=true".data []
  simpa using h

/-- C9 counterexample: the resolved reference never contains the contiguous
text `width=1024&height=576&nologo=true`, because the `seed` parameter sits
between `height` and `nologo`; the two pieces do occur separately. -/
theorem c9_url_counterexample :
    containsSub (generate_pollinations_image [] "d".data "c".data 0)
      "width=1024&height=576&nologo=true".data = false ∧
    containsSub (generate_pollinations_image [] "d".data "c".data 0)
      "width=1024&height=576".data = true ∧
    containsSub (generate_pollinations_image [] "d".data "c".data 0)
      "&nologo=true".data = true :=
  ⟨rfl, rfl, rfl⟩

/-- C9 (amended): the visual asset resolver is total (its body catches every
exception); its result always contains `width=1024&height=576` and
`&nologo=true` (separated by `&seed=<timestamp>`); and a description longer
than 300 characters is truncated to 300 characters with a trailing ellipsis
before being encoded into the prompt. -/
theorem c9_url_amended (base description context : Str) (ts : Nat) :
    containsSub (generate_pollinations_image base description context ts)
      "width=1024&height=576".data = true ∧
    containsSub (generate_pollinations_image base description context ts)
      "&nologo=true".data = true ∧
    (description.length > 300 →
      generate_pollinations_image base description context ts
        = base ++ pyQuote ("Educational illustration: ".data ++
            (description.take 300 ++ "...".data) ++ ". Context: ".data ++ context ++
            ". Style: clean, professional, clear, high resolution.".data) ++
          "?width=1024&height=576&seed=".data ++ (toString ts).data ++
          "&nologo=true".data) := by
  refine ⟨?_, ?_, ?_⟩
  · exact c9_contains_width _ _
  · exact c9_contains_nologo _
  · intro h
    unfold generate_pollinations_image
    simp [h]

/-- C9 witness: a 301-character description is truncated before encoding,
and the fixed width/height and nologo parameters are present. -/
theorem c9_witness :
    containsSub
        (generate_pollinations_image "https://image.pollinations.ai/prompt/".data
          (List.replicate 301 'a') "topic".data 7)
        "width=1024&height=576".data = true ∧
    generate_pollinations_image "https://image.pollinations.ai/prompt/".data
        (List.replicate 301 'a') "topic".data 7
      = "https://image.pollinations.ai/prompt/".data ++
        pyQuote ("Educational illustration: ".data ++
          ((List.replicate 301 'a').take 300 ++ "...".data) ++ ". Context: ".data ++
          "topic".data ++
          ". Style: clean, professional, clear, high resolution.".data) ++
        "?width=1024&height=576&seed=".data ++ (toString 7).data ++
        "&nologo=true".data :=
  ⟨(c9_url_amended _ _ _ _).1, (c9_url_amended _ _ _ _).2.2 (by decide)⟩

/-- C7 (confirmed): whatever the slide type, when the extractor applied to
the content response yields a non-dict or falsy value, the content generator
returns exactly the standard error sentinel payload instead of raising. -/
theorem c7_error_sentinel (llm : Str → Str) (base : Str) (ts : Nat)
    (structOpt : Option (List JsonValue)) (info : JsonValue)
    (topic complexity dateStr : Str) (P : Str)
    (hobj : isDict info = true)
    (hP : buildContentPrompt structOpt info topic complexity dateStr = some P)
    (hfail : (isDict (parse_json_from_response (llm P)) &&
              pyTruthy (parse_json_from_response (llm P))) = false) :
    generate_slide_content llm base ts structOpt info topic complexity dateStr
      = some errorSentinel := by
  have hni : pyTruthy (pyDictGetD errorSentinel "needs_image".data JsonValue.null)
      = false := rfl
  unfold generate_slide_content
  simp [hobj, hP, hfail, hni]

/-- C7 witness: an unparsable content response for a concrete descriptor
produces exactly the sentinel. -/
theorem c7_witness :
    generate_slide_content (fun _ => "total nonsense".data) [] 0 none
        (JsonValue.obj [("slide_title".data, JsonValue.str "T".data),
                        ("slide_type".data, JsonValue.str "mystery".data),
                        ("slide_number".data, JsonValue.num 1)])
        "Topic".data "Basic".data "May 01, 2025".data
      = some errorSentinel :=
  c7_error_sentinel _ _ _ _ _ _ _ _
    (unknownSlidePrompt (JsonValue.num 1) (JsonValue.str "T".data)
      (JsonValue.str "mystery".data) "Basic".data "Topic".data)
    rfl rfl rfl

/-- C2: evaluation at the failing input.  The validation loop numbers a
retained element with its input enumeration index plus one, so after the
invalid first element is dropped, the single retained element — output
position 1 — carries `slide_number = 2`, not 1. -/
theorem c2_numbering_bug :
    generate_slide_structure
        "START OF JSON [0, \x7b\"slide_title\": \"T\", \"slide_type\": \"content_slide\"\x7d] END OF JSON".data
      = [JsonValue.obj [("slide_title".data, JsonValue.str "T".data),
                        ("slide_type".data, JsonValue.str "content_slide".data),
                        ("slide_number".data, JsonValue.num 2)]] ∧
    JsonValue.num 2 ≠ JsonValue.num 1 :=
  ⟨rfl, by intro h; injection h with h2; exact absurd h2 (by decide)⟩

theorem create_slides_loop_eq (f : JsonValue → JsonValue) (n : Nat) :
    ∀ (rest : List JsonValue) (i : Nat) (acc : List (Option JsonValue))
      (trace : List JsonValue),
      (∀ info ∈ rest, isDict info = true ∧ slideNumOK info = true) →
      acc.length = n → i + rest.length = n →
      create_slides_loop f n rest i acc trace
        = some (amendedPlaceLoop f n rest i acc, trace ++ rest) := by
  intro rest
  induction rest with
  | nil =>
    intro i acc trace _ _ _
    simp [create_slides_loop, amendedPlaceLoop]
  | cons info rest ih =>
    intro i acc trace h hlen hi
    obtain ⟨hd, hnum⟩ := h info (by simp)
    obtain ⟨m, hm⟩ : ∃ m, slideNumRaw info i = some m := by
      unfold slideNumOK at hnum
      unfold slideNumRaw
      rcases hg : pyDictGet? info "slide_number".data with _ | v
      · exact ⟨_, rfl⟩
      · cases v <;> first | exact ⟨_, rfl⟩ | (rw [hg] at hnum; simp at hnum)
    unfold create_slides_loop
    rw [hm]
    simp only [hd, if_true]
    by_cases hin : 1 ≤ m ∧ m ≤ (n : Int)
    · rw [if_pos hin]
      have step := ih (i + 1) (acc.set (m - 1).toNat (some (f info))) (trace ++ [info])
        (fun d hd2 => h d (by simp [hd2]))
        (by simp [hlen]) (by simp at hi; omega)
      have ht : amendedTarget n info i = (m - 1).toNat := by
        simp [amendedTarget, hm, hin]
      rw [step, amendedPlaceLoop, ht]
      simp
    · rw [if_neg hin]
      have hi' : i < acc.length := by
        rw [hlen]; simp at hi; omega
      rw [if_pos hi']
      have step := ih (i + 1) (acc.set i (some (f info))) (trace ++ [info])
        (fun d hd2 => h d (by simp [hd2]))
        (by simp [hlen]) (by simp at hi; omega)
      have ht : amendedTarget n info i = i := by
        simp [amendedTarget, hm, hin]
      rw [step, amendedPlaceLoop, ht]
      simp

/-- C8 counterexample: a generated structure can carry out-of-range slide
numbers (the numbering bug makes `c8Input` yield descriptors numbered 2 and
99 at positions 1 and 2), and the batch loop then places the out-of-range
payload at the loop index `i`, overwriting the payload stored there — it
does not append.  Under the claim's append semantics both payloads would
survive; the code keeps only the second. -/
theorem c8_placement_counterexample :
    generate_slide_structure_post c8Input = [c8DescA, c8DescB] ∧
    create_slides_with_content (fun s => s) [c8DescA, c8DescB]
      = some ([c8DescB], [c8DescA, c8DescB]) ∧
    (claimedPlacementLoop (fun s => s) 2 [c8DescA, c8DescB] 0
        (List.replicate 2 none)).filterMap id = [c8DescA, c8DescB] ∧
    ([c8DescB] : List JsonValue) ≠ [c8DescA, c8DescB] :=
  ⟨rfl, rfl, rfl, by intro h; exact absurd (congrArg List.length h) (by decide)⟩

/-- C8 (amended): with every descriptor a dict whose `slide_number`, if
present, is a number, the batch orchestrator never aborts: it invokes content
generation exactly once per descriptor in order (the returned trace is the
structure itself), places each payload at index `slide_number - 1` when
`1 <= slide_number <= n` and at the loop index `i` otherwise (the append
branch is dead code), and returns the non-`None` entries of the resulting
`n`-element array. -/
theorem c8_placement_amended (f : JsonValue → JsonValue)
    (struct : List JsonValue)
    (h : ∀ info ∈ struct, isDict info = true ∧ slideNumOK info = true) :
    create_slides_with_content f struct
      = some ((amendedPlaceLoop f struct.length struct 0
            (List.replicate struct.length none)).filterMap id, struct) := by
  unfold create_slides_with_content
  cases hs : struct with
  | nil => simp [amendedPlaceLoop]
  | cons d rest =>
    rw [← hs]
    have hne : struct.isEmpty = false := by rw [hs]; rfl
    rw [hne]
    simp only [Bool.false_eq_true, if_false]
    rw [create_slides_loop_eq f struct.length struct 0 _ [] h
        (by simp) (by simp)]
    simp

/-- C8 witness: the amended placement applied to the two-descriptor structure
with numbers 2 and 99. -/
theorem c8_witness :
    create_slides_with_content (fun s => s) [c8DescA, c8DescB]
      = some ([c8DescB], [c8DescA, c8DescB]) := by
  rw [c8_placement_amended (fun s => s) [c8DescA, c8DescB] (by decide)]
  rfl

/-- C1 (confirmed): for a structure whose descriptor at 1-based position `N`
is a `content_slide` numbered `N` and whose descriptor at position `N + 1`
(0-based index `N` — the lookahead reads `full_structure[slide_number]`) has
the same title and type `image_slide`, the content prompt built for
descriptor `N` contains the lead-in framing text, and it differs from the
prompt built whenever the lookahead does not detect such a following image
slide. -/
theorem c1_leadin_lookahead (struct : List JsonValue) (N : Nat)
    (info next titleV : JsonValue) (topic complexity dateStr : Str)
    (hpos : 1 ≤ N)
    (hmem : struct[N - 1]? = some info)
    (hobj : isDict info = true)
    (htype : slideTypeOf info = JsonValue.str "content_slide".data)
    (hnum : slideNumberOf info = JsonValue.num (N : Int))
    (htitle : slideTitleOf info = titleV)
    (hlen : N < struct.length)
    (hnextEq : struct[N]? = some next)
    (hnextDict : isDict next = true)
    (hj1 : jeq (pyDictGetD next "slide_title".data JsonValue.null) titleV = true)
    (hj2 : jeq (pyDictGetD next "slide_type".data JsonValue.null)
        (JsonValue.str "image_slide".data) = true) :
    ∃ p, buildContentPrompt (some struct) info topic complexity dateStr = some p ∧
      containsSub p leadInGuidance = true ∧
      ∀ structOpt2 p2,
        isExplanationCheck structOpt2 (slideNumberOf info) (slideTitleOf info)
          = some false →
        buildContentPrompt structOpt2 info topic complexity dateStr = some p2 →
        p2 ≠ p := by
  have hN : ((N : Int)) < (struct.length : Int) := by exact_mod_cast hlen
  have hN0 : ¬ (((N : Int)) < 0) := by omega
  have h0 : (0 : Int) ≤ (N : Int) := by omega
  have hidx : pyListIndex struct ((N : Int)) = some next := by
    simp [pyListIndex, hN0, hN, h0, hnextEq]
  have hcheck : isExplanationCheck (some struct) (slideNumberOf info)
      (slideTitleOf info) = some true := by
    rw [hnum, htitle]
    have he : isExplanationCheck (some struct) (JsonValue.num (N : Int)) titleV
        = if ((N : Int)) < (struct.length : Int) then
            match pyListIndex struct ((N : Int)) with
            | none => none
            | some nx =>
              if isDict nx = true then
                some (jeq (pyDictGetD nx "slide_title".data JsonValue.null) titleV &&
                      jeq (pyDictGetD nx "slide_type".data JsonValue.null)
                        (JsonValue.str "image_slide".data))
              else none
          else some false := rfl
    rw [he, if_pos hN, hidx]
    simp [hnextDict, hj1, hj2]
  have hb1 : jeq (JsonValue.str "content_slide".data)
      (JsonValue.str "title_slide".data) = false := rfl
  have hb2 : jeq (JsonValue.str "content_slide".data)
      (JsonValue.str "content_slide".data) = true := rfl
  have hbuild : ∀ (so : Option (List JsonValue)) (r : Bool),
      isExplanationCheck so (slideNumberOf info) (slideTitleOf info) = some r →
      buildContentPrompt so info topic complexity dateStr
        = some (contentPromptPrefix (slideNumberOf info) (slideTitleOf info)
            (slideTypeOf info) complexity topic ++
            (if r then leadInGuidance else defaultGuidance) ++
            contentPromptSuffix (slideTitleOf info) topic) := by
    intro so r hr
    unfold buildContentPrompt
    rw [hobj]
    simp only [eq_self_iff_true, if_true, htype, hb1, hb2, Bool.false_eq_true,
      if_false]
    simp [hr]
  refine ⟨contentPromptPrefix (slideNumberOf info) (slideTitleOf info)
      (slideTypeOf info) complexity topic ++ leadInGuidance ++
      contentPromptSuffix (slideTitleOf info) topic, ?_, ?_, ?_⟩
  · have := hbuild (some struct) true hcheck
    simpa using this
  · rw [List.append_assoc]
    exact containsSub_append_mid _ _ _
  · intro structOpt2 p2 hch2 hbp2
    have h2 := hbuild structOpt2 false hch2
    rw [hbp2] at h2
    simp only [Option.some.injEq, Bool.false_eq_true, if_false] at h2
    rw [h2]
    simp only [List.append_assoc]
    exact append_mid_ne _ _ _ _ (by decide)

/-- C1 witness: a two-slide structure pairing a `content_slide` with a
following `image_slide` of the same title. -/
theorem c1_witness :
    ∃ p, buildContentPrompt
        (some [JsonValue.obj [("slide_number".data, JsonValue.num 1),
                 ("slide_title".data, JsonValue.str "X".data),
                 ("slide_type".data, JsonValue.str "content_slide".data)],
               JsonValue.obj [("slide_number".data, JsonValue.num 2),
                 ("slide_title".data, JsonValue.str "X".data),
                 ("slide_type".data, JsonValue.str "image_slide".data)]])
        (JsonValue.obj [("slide_number".data, JsonValue.num 1),
          ("slide_title".data, JsonValue.str "X".data),
          ("slide_type".data, JsonValue.str "content_slide".data)])
        "Topic".data "Basic".data "May 01, 2025".data = some p ∧
      containsSub p leadInGuidance = true ∧
      ∀ structOpt2 p2,
        isExplanationCheck structOpt2
            (slideNumberOf (JsonValue.obj [("slide_number".data, JsonValue.num 1),
              ("slide_title".data, JsonValue.str "X".data),
              ("slide_type".data, JsonValue.str "content_slide".data)]))
            (slideTitleOf (JsonValue.obj [("slide_number".data, JsonValue.num 1),
              ("slide_title".data, JsonValue.str "X".data),
              ("slide_type".data, JsonValue.str "content_slide".data)]))
          = some false →
        buildContentPrompt structOpt2
            (JsonValue.obj [("slide_number".data, JsonValue.num 1),
              ("slide_title".data, JsonValue.str "X".data),
              ("slide_type".data, JsonValue.str "content_slide".data)])
            "Topic".data "Basic".data "May 01, 2025".data = some p2 →
        p2 ≠ p :=
  c1_leadin_lookahead
    [JsonValue.obj [("slide_number".data, JsonValue.num 1),
       ("slide_title".data, JsonValue.str "X".data),
       ("slide_type".data, JsonValue.str "content_slide".data)],
     JsonValue.obj [("slide_number".data, JsonValue.num 2),
       ("slide_title".data, JsonValue.str "X".data),
       ("slide_type".data, JsonValue.str "image_slide".data)]]
    1
    (JsonValue.obj [("slide_number".data, JsonValue.num 1),
      ("slide_title".data, JsonValue.str "X".data),
      ("slide_type".data, JsonValue.str "content_slide".data)])
    (JsonValue.obj [("slide_number".data, JsonValue.num 2),
      ("slide_title".data, JsonValue.str "X".data),
      ("slide_type".data, JsonValue.str "image_slide".data)])
    (JsonValue.str "X".data)
    "Topic".data "Basic".data "May 01, 2025".data
    (by decide) rfl rfl rfl rfl rfl (by decide) rfl rfl rfl rfl
